import Mathlib

/-!
Shallow embedding of the Placement expression system of
`src/MultibodyModeling/PlacementRep.h` (simbody).

The embedding follows the source class hierarchy: the abstract
`PlacementRep` with its per-value-kind bases (Real, Vec3, Station,
Direction, Orientation, Frame) and their constant / feature-reference /
expression leaves becomes one mutual inductive (`PlacementRep` together
with its operand lists `PlacementArgs`).  Raw pointers (handles, owner
Features, cache slots) are embedded as optional ids; the external cache is
a list of typed cells; `assert` failures and thrown exceptions are an
explicit error type.  Scalars are embedded as `Int`; no verified property
depends on floating-point analysis.

Code of this repository that is referenced from the header but whose body
lives in `PlacementRep.cpp` (which is not part of the supplied sources) is
modelled from the spec; every such definition carries a doc comment saying
so.
-/

namespace Simtk

/-- Failures: `assert` contract violations and the typed exception thrown
by `StationFeaturePlacementRep::castToFramePlacement` (lines 980-983),
which names the offending Feature's full name, its feature type name and
the requested kind. -/
inductive PErr where
  | assertFailed (msg : String)
  | featureUsedAsFramePlacementMustBeOnFrame (fullName typeName requested : String)
deriving DecidableEq, Repr

/-- 3-vector of scalars.  The source `Vec3` holds `Real` (floating point)
components; scalars are embedded as `Int`. -/
structure Vec3 where
  x : Int
  y : Int
  z : Int
deriving DecidableEq, Repr

/-- 3x3 matrix stored as three columns, matching the source `Mat33` whose
`ori(i)` accessor yields column `i` (used at line 1392). -/
structure Mat33 where
  c0 : Vec3
  c1 : Vec3
  c2 : Vec3
deriving DecidableEq, Repr

/-- 3x4 matrix as four columns; a frame value is built as
`Mat34(ori(0), ori(1), ori(2), origin)` (line 1392). -/
structure Mat34 where
  c0 : Vec3
  c1 : Vec3
  c2 : Vec3
  c3 : Vec3
deriving DecidableEq, Repr

/-- `enum PlacementType` (PlacementRep.h lines 82-95), all twelve
enumerators in source order. -/
inductive PlacementType where
  | InvalidPlacementType
  | VoidPlacementType
  | BoolPlacementType
  | IntPlacementType
  | RealPlacementType
  | Vec2PlacementType
  | Vec3PlacementType
  | Mat33PlacementType
  | StationPlacementType
  | DirectionPlacementType
  | OrientationPlacementType
  | FramePlacementType
deriving DecidableEq, Repr

/-- The twelve enumerators of `PlacementType`, in declaration order. -/
def allPlacementTypes : List PlacementType :=
  [PlacementType.InvalidPlacementType, PlacementType.VoidPlacementType,
   PlacementType.BoolPlacementType, PlacementType.IntPlacementType,
   PlacementType.RealPlacementType, PlacementType.Vec2PlacementType,
   PlacementType.Vec3PlacementType, PlacementType.Mat33PlacementType,
   PlacementType.StationPlacementType, PlacementType.DirectionPlacementType,
   PlacementType.OrientationPlacementType, PlacementType.FramePlacementType]

/-- `RealOps::OpKind` (lines 117-119). -/
inductive RealOpKind where
  | Negate | Abs | Sqrt | Exp | Log | Sin | Cos | Asin | Acos | VectorLength
  | Add | Subtract | Multiply | Divide | DotProduct2 | DotProduct3
  | PointDistance | AngleBetweenVectors
deriving DecidableEq, Repr

/-- `Vec3Ops::OpKind` (lines 170-172). -/
inductive Vec3OpKind where
  | RecastStation | RecastDirection | Negate
  | Add | Subtract | StationDifference
  | ScalarMultiply | ScalarDivide | CrossProduct
deriving DecidableEq, Repr

/-- `StationOps::OpKind` (lines 207-208). -/
inductive StationOpKind where
  | RecastVec3 | Add | Subtract
deriving DecidableEq, Repr

/-- `DirectionOps::OpKind` (line 251). -/
inductive DirectionOpKind where
  | Negate | Normalize
deriving DecidableEq, Repr

/-- `OrientationOps::OpKind` (line 293). -/
inductive OrientationOpKind where
  | NoneYet
deriving DecidableEq, Repr

/-- Payload of a `PlacementValueRep_<T>` cache cell, tagged by the value
type `T` (Real, Vec3, Mat33 or Mat34 in the source). -/
inductive PlacementValueBody where
  | realVal (r : Int)
  | vec3Val (v : Vec3)
  | mat33Val (m : Mat33)
  | mat34Val (m : Mat34)
deriving DecidableEq, Repr

/-- A `PlacementValueRep` cache cell: the validity flag (line 1444) plus
the stored typed value, which is default-constructed until the first
`setValue` (lines 1452-1473). -/
structure PlacementValueCell where
  valid : Bool
  body  : PlacementValueBody
deriving DecidableEq, Repr

/-- The external cache storage: cells addressed by slot id.  A
`PlacementValue*` pointer of the source is embedded as an index into this
list. -/
abbrev SlotStore := List PlacementValueCell

/-- Feature kinds as far as this core consults them: `Station::isInstanceOf`
and `Frame::isInstanceOf` (lines 971-973) are embedded as kind tests. -/
inductive FeatureKind where
  | stationKind
  | frameKind
  | realKind
  | otherKind (tag : String)
deriving DecidableEq, Repr

/-- Modelled from the spec: the identity and diagnostic data of an external
`Feature` (Feature.h is not part of the supplied sources).  `fid` stands
for the Feature object's identity (its address in the source);
`placementValue` is the Feature's realized current-placement value, which
the spec (section 6) exposes through `getPlacement()` and which
`getReferencedValue` reads after realization. -/
structure FeatureData where
  fid : Nat
  kind : FeatureKind
  fullName : String
  typeName : String
  placementValue : Option PlacementValueBody
deriving DecidableEq, Repr

/-- Modelled from the spec: the external Feature tree (section 6), a node
with its chain of parents.  Only the interface this core consumes is
embedded: kind tests, the immediate parent, names for diagnostics, and the
ancestor chain used by `dependsOn` and the ancestor queries. -/
inductive Feature where
  | root (d : FeatureData)
  | child (d : FeatureData) (parent : Feature)
deriving DecidableEq, Repr

def Feature.data : Feature → FeatureData
  | .root d => d
  | .child d _ => d

def Feature.fid (f : Feature) : Nat := f.data.fid

def Feature.kind (f : Feature) : FeatureKind := f.data.kind

def Feature.fullName (f : Feature) : String := f.data.fullName

def Feature.featureTypeName (f : Feature) : String := f.data.typeName

def Feature.placementValue (f : Feature) : Option PlacementValueBody :=
  f.data.placementValue

/-- `getParentFeature` / `hasParentFeature` of the external Feature. -/
def Feature.parent : Feature → Option Feature
  | .root _ => none
  | .child _ p => some p

def Feature.hasParentFeature (f : Feature) : Bool := f.parent.isSome

/-- The feature itself followed by its ancestors, nearest first. -/
def Feature.selfAndAncestors : Feature → List Feature
  | .root d => [.root d]
  | .child d p => .child d p :: p.selfAndAncestors

/-- Modelled from the spec: `Feature::dependsOn` belongs to the external
Feature collaborator (section 4.8: identity or an ancestor/descendant
relation).  Embedded as: `g` depends on `f` when `f` is `g` itself or an
ancestor of `g`. -/
def Feature.dependsOn (g f : Feature) : Bool :=
  (g.selfAndAncestors.map Feature.fid).contains f.fid

/-- `FeatureReference` (lines 396-432): a non-owning link to a Feature plus
an optional index, `-1` meaning unindexed (line 407). -/
structure FeatureReference where
  feature : Feature
  index : Int

/-- `FeatureReference::isIndexed` (line 407). -/
def FeatureReference.isIndexed (r : FeatureReference) : Bool :=
  r.index != -1

/-- `FeatureReference::refIsConstant` (line 413): always false, with the
source comment "might be, but we can't count on it". -/
def FeatureReference.refIsConstant (_ : FeatureReference) : Bool := false

/-- The data members of the abstract `PlacementRep` (lines 537-545); the
three raw pointers are embedded as optional ids.  The default constructor
(line 437) clears all of them and sets `indexInOwner` to `-1`. -/
structure RepBase where
  myHandle : Option Nat
  owner : Option Nat
  indexInOwner : Int
  valueSlot : Option Nat
deriving DecidableEq, Repr

/-- `PlacementRep()` (line 437). -/
def defaultRepBase : RepBase := ⟨none, none, -1, none⟩

/-- `PlacementRep::hasOwner` (line 517). -/
def RepBase.hasOwner (b : RepBase) : Bool := b.owner.isSome

/-- `PlacementRep::hasValueSlot` (line 441). -/
def RepBase.hasValueSlot (b : RepBase) : Bool := b.valueSlot.isSome

mutual
/-- The concrete `PlacementRep` classes of PlacementRep.h: for each value
kind that the header fully defines, its constant, feature-reference and
expression leaves (Bool/Int/Vec2 reps and a Frame constant are only
forward-declared in the source and so have no embedding).
`FrameExprPlacementRep` is its own shape: an orientation placement paired
with a station origin placement (lines 1368-1408). -/
inductive PlacementRep where
  | realConst (base : RepBase) (value : Int)
  | realFeature (base : RepBase) (ref : FeatureReference)
  | realExpr (base : RepBase) (op : RealOpKind) (args : PlacementArgs)
  | vec3Const (base : RepBase) (value : Vec3)
  | vec3Feature (base : RepBase) (ref : FeatureReference)
  | vec3Expr (base : RepBase) (op : Vec3OpKind) (args : PlacementArgs)
  | stationConst (base : RepBase) (loc : Vec3)
  | stationFeature (base : RepBase) (ref : FeatureReference)
  | stationExpr (base : RepBase) (op : StationOpKind) (args : PlacementArgs)
  | directionConst (base : RepBase) (dir : Vec3)
  | directionFeature (base : RepBase) (ref : FeatureReference)
  | directionExpr (base : RepBase) (op : DirectionOpKind) (args : PlacementArgs)
  | orientationConst (base : RepBase) (ori : Mat33)
  | orientationFeature (base : RepBase) (ref : FeatureReference)
  | orientationExpr (base : RepBase) (op : OrientationOpKind) (args : PlacementArgs)
  | frameFeature (base : RepBase) (ref : FeatureReference)
  | frameExpr (base : RepBase) (orientation : PlacementRep) (origin : PlacementRep)

/-- The ordered operand list of a `PlacementExpr` (line 388,
`std::vector<Placement> args`; each operand is a value-typed copy). -/
inductive PlacementArgs where
  | nil
  | cons (p : PlacementRep) (ps : PlacementArgs)
end

/-- View an operand list as a plain list. -/
def PlacementArgs.toList : PlacementArgs → List PlacementRep
  | .nil => []
  | .cons p ps => p :: ps.toList

/-- The `PlacementRep` data members of any concrete rep. -/
def PlacementRep.base : PlacementRep → RepBase
  | .realConst b _ => b
  | .realFeature b _ => b
  | .realExpr b _ _ => b
  | .vec3Const b _ => b
  | .vec3Feature b _ => b
  | .vec3Expr b _ _ => b
  | .stationConst b _ => b
  | .stationFeature b _ => b
  | .stationExpr b _ _ => b
  | .directionConst b _ => b
  | .directionFeature b _ => b
  | .directionExpr b _ _ => b
  | .orientationConst b _ => b
  | .orientationFeature b _ => b
  | .orientationExpr b _ _ => b
  | .frameFeature b _ => b
  | .frameExpr b _ _ => b

/-- Replace the `PlacementRep` data members, keeping the concrete payload:
how `cloneUnownedWithNewHandle` (lines 524-529) edits the fresh copy. -/
def PlacementRep.withBase (b : RepBase) : PlacementRep → PlacementRep
  | .realConst _ v => .realConst b v
  | .realFeature _ r => .realFeature b r
  | .realExpr _ op a => .realExpr b op a
  | .vec3Const _ v => .vec3Const b v
  | .vec3Feature _ r => .vec3Feature b r
  | .vec3Expr _ op a => .vec3Expr b op a
  | .stationConst _ v => .stationConst b v
  | .stationFeature _ r => .stationFeature b r
  | .stationExpr _ op a => .stationExpr b op a
  | .directionConst _ v => .directionConst b v
  | .directionFeature _ r => .directionFeature b r
  | .directionExpr _ op a => .directionExpr b op a
  | .orientationConst _ v => .orientationConst b v
  | .orientationFeature _ r => .orientationFeature b r
  | .orientationExpr _ op a => .orientationExpr b op a
  | .frameFeature _ r => .frameFeature b r
  | .frameExpr _ o s => .frameExpr b o s

mutual
/-- `isConstant` virtual dispatch: the abstract default is false (line
497); every constant rep overrides it to true (lines 604, 763, 917, 1079,
1209); every feature-reference rep delegates to `refIsConstant` (always
false, line 413); every expression rep delegates to `exprIsConstant`; and
`FrameExprPlacementRep::isConstant` is the conjunction of its two operands
(lines 1377-1378).  `exprIsConstant`'s body is in PlacementRep.cpp (not
among the supplied sources); it is modelled from its header doc comment
"Return true if all the arguments are constant." (line 376). -/
def PlacementRep.isConstant : PlacementRep → Bool
  | .realConst _ _ => true
  | .vec3Const _ _ => true
  | .stationConst _ _ => true
  | .directionConst _ _ => true
  | .orientationConst _ _ => true
  | .realFeature _ r => r.refIsConstant
  | .vec3Feature _ r => r.refIsConstant
  | .stationFeature _ r => r.refIsConstant
  | .directionFeature _ r => r.refIsConstant
  | .orientationFeature _ r => r.refIsConstant
  | .frameFeature _ r => r.refIsConstant
  | .realExpr _ _ args => PlacementRep.allConstant args
  | .vec3Expr _ _ args => PlacementRep.allConstant args
  | .stationExpr _ _ args => PlacementRep.allConstant args
  | .directionExpr _ _ args => PlacementRep.allConstant args
  | .orientationExpr _ _ args => PlacementRep.allConstant args
  | .frameExpr _ o s => o.isConstant && s.isConstant

/-- All operands constant (the body of `exprIsConstant`, see above). -/
def PlacementRep.allConstant : PlacementArgs → Bool
  | .nil => true
  | .cons p ps => p.isConstant && PlacementRep.allConstant ps
end

mutual
/-- `dependsOn` virtual dispatch: the abstract default is false (line 502,
inherited by the constant reps); feature-reference reps delegate to
`refDependsOn`, which asks the external Feature (lines 415-417);
expression reps delegate to `exprDependsOn`; and
`FrameExprPlacementRep::dependsOn` is the disjunction of its two operands
(lines 1380-1382).  `exprDependsOn`'s body is in PlacementRep.cpp; it is
modelled from its header doc comment "Return true if any of the arguments
depend on f." (line 379). -/
def PlacementRep.dependsOn : PlacementRep → Feature → Bool
  | .realConst _ _, _ => false
  | .vec3Const _ _, _ => false
  | .stationConst _ _, _ => false
  | .directionConst _ _, _ => false
  | .orientationConst _ _, _ => false
  | .realFeature _ r, f => r.feature.dependsOn f
  | .vec3Feature _ r, f => r.feature.dependsOn f
  | .stationFeature _ r, f => r.feature.dependsOn f
  | .directionFeature _ r, f => r.feature.dependsOn f
  | .orientationFeature _ r, f => r.feature.dependsOn f
  | .frameFeature _ r, f => r.feature.dependsOn f
  | .realExpr _ _ args, f => PlacementRep.anyDependsOn args f
  | .vec3Expr _ _ args, f => PlacementRep.anyDependsOn args f
  | .stationExpr _ _ args, f => PlacementRep.anyDependsOn args f
  | .directionExpr _ _ args, f => PlacementRep.anyDependsOn args f
  | .orientationExpr _ _ args, f => PlacementRep.anyDependsOn args f
  | .frameExpr _ o s, f => o.dependsOn f || s.dependsOn f

/-- Some operand depends on the Feature (the body of `exprDependsOn`). -/
def PlacementRep.anyDependsOn : PlacementArgs → Feature → Bool
  | .nil, _ => false
  | .cons p ps, f => p.dependsOn f || PlacementRep.anyDependsOn ps f
end

/-- Slot read shared by the slot-backed `getValue` implementations
(e.g. `RealPlacementRep::getValue`, lines 586-589): assert that a slot is
assigned, downcast the cell to the expected value type, then `get` the
value.  `PlacementValue_<T>::get` itself is declared outside the supplied
sources; it is modelled from the spec (section 3, Cache Slot: "get
(assumed already valid, else a contract violation)"). -/
def readSlotReal (b : RepBase) (σ : SlotStore) : Except PErr Int :=
  match b.valueSlot with
  | none => Except.error (.assertFailed "getValue: hasValueSlot")
  | some k =>
    match σ[k]? with
    | none => Except.error (.assertFailed "getValue: dangling value slot")
    | some c =>
      match c.body with
      | .realVal r =>
        if c.valid then Except.ok r
        else Except.error (.assertFailed "PlacementValue get: value not valid")
      | _ => Except.error (.assertFailed "downcast to PlacementValue of Real failed")

/-- Slot read for Vec3-valued cells (see `readSlotReal`). -/
def readSlotVec3 (b : RepBase) (σ : SlotStore) : Except PErr Vec3 :=
  match b.valueSlot with
  | none => Except.error (.assertFailed "getValue: hasValueSlot")
  | some k =>
    match σ[k]? with
    | none => Except.error (.assertFailed "getValue: dangling value slot")
    | some c =>
      match c.body with
      | .vec3Val v =>
        if c.valid then Except.ok v
        else Except.error (.assertFailed "PlacementValue get: value not valid")
      | _ => Except.error (.assertFailed "downcast to PlacementValue of Vec3 failed")

/-- Slot read for Mat33-valued cells (see `readSlotReal`). -/
def readSlotMat33 (b : RepBase) (σ : SlotStore) : Except PErr Mat33 :=
  match b.valueSlot with
  | none => Except.error (.assertFailed "getValue: hasValueSlot")
  | some k =>
    match σ[k]? with
    | none => Except.error (.assertFailed "getValue: dangling value slot")
    | some c =>
      match c.body with
      | .mat33Val m =>
        if c.valid then Except.ok m
        else Except.error (.assertFailed "PlacementValue get: value not valid")
      | _ => Except.error (.assertFailed "downcast to PlacementValue of Mat33 failed")

/-- `updValueSlot().set(v)`: assert a slot is assigned (line 446),
downcast the cell to the expected value type (e.g. line 561) and store the
value, marking the cell valid (`PlacementValueRep_::setValue`, line
1468). -/
def setSlotChecked (b : RepBase) (sameTag : PlacementValueBody → Bool)
    (v : PlacementValueBody) (σ : SlotStore) : Except PErr SlotStore :=
  match b.valueSlot with
  | none => Except.error (.assertFailed "updValueSlot: no value slot assigned")
  | some k =>
    match σ[k]? with
    | none => Except.error (.assertFailed "updValueSlot: dangling value slot")
    | some c =>
      if sameTag c.body then Except.ok (σ.set k ⟨true, v⟩)
      else Except.error (.assertFailed "updValueSlot: downcast to expected PlacementValue type failed")

def PlacementValueBody.isRealVal : PlacementValueBody → Bool
  | .realVal _ => true
  | _ => false

def PlacementValueBody.isVec3Val : PlacementValueBody → Bool
  | .vec3Val _ => true
  | _ => false

def PlacementValueBody.isMat33Val : PlacementValueBody → Bool
  | .mat33Val _ => true
  | _ => false

def PlacementValueBody.isMat34Val : PlacementValueBody → Bool
  | .mat34Val _ => true
  | _ => false

def setSlotReal (b : RepBase) (v : Int) (σ : SlotStore) : Except PErr SlotStore :=
  setSlotChecked b PlacementValueBody.isRealVal (.realVal v) σ

def setSlotVec3 (b : RepBase) (v : Vec3) (σ : SlotStore) : Except PErr SlotStore :=
  setSlotChecked b PlacementValueBody.isVec3Val (.vec3Val v) σ

def setSlotMat33 (b : RepBase) (v : Mat33) (σ : SlotStore) : Except PErr SlotStore :=
  setSlotChecked b PlacementValueBody.isMat33Val (.mat33Val v) σ

def setSlotMat34 (b : RepBase) (v : Mat34) (σ : SlotStore) : Except PErr SlotStore :=
  setSlotChecked b PlacementValueBody.isMat34Val (.mat34Val v) σ

/-- `RealPlacementRep::getValue` (lines 586-589) with the
`RealConstantPlacementRep` override returning the literal (line 619).
Reps outside the Real family are unreachable through a `RealPlacement`
handle; such calls embed as a failed checked downcast. -/
def PlacementRep.realGetValue : PlacementRep → SlotStore → Except PErr Int
  | .realConst _ v, _ => Except.ok v
  | .realFeature b _, σ => readSlotReal b σ
  | .realExpr b _ _, σ => readSlotReal b σ
  | _, _ => Except.error (.assertFailed "downcast to RealPlacementRep failed")

/-- `Vec3PlacementRep::getValue` (lines 745-748) with the
`Vec3ConstantPlacementRep` override returning the literal (line 778). -/
def PlacementRep.vec3GetValue : PlacementRep → SlotStore → Except PErr Vec3
  | .vec3Const _ v, _ => Except.ok v
  | .vec3Feature b _, σ => readSlotVec3 b σ
  | .vec3Expr b _ _, σ => readSlotVec3 b σ
  | _, _ => Except.error (.assertFailed "downcast to Vec3PlacementRep failed")

/-- `StationPlacementRep::getValue` (lines 901-904).  Its comment says
"Constant Rep should override this default.", but neither
`StationConstantPlacementRep` nor `StationExprPlacementRep` overrides it
(they expose `getMeasureNumbers` instead, lines 935 and 1021-1022), so
every station rep reads its cache slot here. -/
def PlacementRep.stationGetValue : PlacementRep → SlotStore → Except PErr Vec3
  | .stationConst b _, σ => readSlotVec3 b σ
  | .stationFeature b _, σ => readSlotVec3 b σ
  | .stationExpr b _ _, σ => readSlotVec3 b σ
  | _, _ => Except.error (.assertFailed "downcast to StationPlacementRep failed")

/-- `DirectionPlacementRep::getValue` (lines 1059-1062); as with stations,
no direction rep overrides it (the constant keeps `getMeasureNumbers`,
line 1099), so every direction rep reads its cache slot. -/
def PlacementRep.directionGetValue : PlacementRep → SlotStore → Except PErr Vec3
  | .directionConst b _, σ => readSlotVec3 b σ
  | .directionFeature b _, σ => readSlotVec3 b σ
  | .directionExpr b _ _, σ => readSlotVec3 b σ
  | _, _ => Except.error (.assertFailed "downcast to DirectionPlacementRep failed")

/-- `OrientationPlacementRep::getValue` (lines 1191-1194) with the
`OrientationConstantPlacementRep` override returning the literal (line
1227). -/
def PlacementRep.orientationGetValue : PlacementRep → SlotStore → Except PErr Mat33
  | .orientationConst _ m, _ => Except.ok m
  | .orientationFeature b _, σ => readSlotMat33 b σ
  | .orientationExpr b _ _, σ => readSlotMat33 b σ
  | _, _ => Except.error (.assertFailed "downcast to OrientationPlacementRep failed")

/-- Modelled from the spec: `refRealize` and `getReferencedValue` have
their bodies in PlacementRep.cpp (not among the supplied sources).  Per
the spec (section 3, Reference node; section 4.5) a reference realizes the
referenced Feature's placement and then reads its value after applying the
optional index; the Feature's realized value is embedded as its
`placementValue` field, and indexing selects a component of an indexable
value. -/
def refReferencedValue (r : FeatureReference) : Except PErr PlacementValueBody :=
  match r.feature.placementValue with
  | none => Except.error (.assertFailed "referenced feature placement has no realized value")
  | some body =>
    if r.index = -1 then Except.ok body
    else
      match body, r.index with
      | .vec3Val w, 0 => Except.ok (.realVal w.x)
      | .vec3Val w, 1 => Except.ok (.realVal w.y)
      | .vec3Val w, 2 => Except.ok (.realVal w.z)
      | .mat33Val m, 0 => Except.ok (.vec3Val m.c0)
      | .mat33Val m, 1 => Except.ok (.vec3Val m.c1)
      | .mat33Val m, 2 => Except.ok (.vec3Val m.c2)
      | _, _ => Except.error (.assertFailed "invalid placement index")

/-- The run-time numeric evaluators `RealOps::apply` and `Vec3Ops::apply`
are "not yet implemented" stubs in the source (`assert(false)`, lines 157
and 195), and the spec (sections 4.2 and 9) defines only their contract: a
pure function of the already-realized operands, to be filled in later.
Realization is therefore parametrized over the future evaluator bodies
(the commented-out `State` parameter of `apply` is the slot store). -/
structure Evaluators where
  realApply : RealOpKind → PlacementArgs → SlotStore → Int
  vec3Apply : Vec3OpKind → PlacementArgs → SlotStore → Vec3

mutual
/-- `realize` virtual dispatch over the concrete reps:
constants are no-ops (lines 602, 761, 916, 1078, 1208); feature references
assert a slot, realize the reference and store the referenced value (e.g.
lines 637-641); Real and Vec3 expressions realize their operands and store
the applied operator value (lines 669-673 and 851-855); Station, Direction
and Orientation expressions only realize their operands (lines 1010, 1157,
1282 - note: they store nothing); `FrameExprPlacementRep::realize`
realizes orientation then origin and stores the assembled `Mat34` (lines
1387-1394).  `exprRealize`'s body is in PlacementRep.cpp; it is modelled
from its header doc comment "Make sure all the arguments are realized."
(line 373) and the spec's depth-first ordering (section 4.5) as realizing
the operands in order. -/
def PlacementRep.realize (ev : Evaluators) :
    PlacementRep → SlotStore → Except PErr SlotStore
  | .realConst _ _, σ => Except.ok σ
  | .vec3Const _ _, σ => Except.ok σ
  | .stationConst _ _, σ => Except.ok σ
  | .directionConst _ _, σ => Except.ok σ
  | .orientationConst _ _, σ => Except.ok σ
  | .realFeature b r, σ =>
    if b.valueSlot.isNone then Except.error (.assertFailed "realize: hasValueSlot")
    else
      match refReferencedValue r with
      | .error e => Except.error e
      | .ok (.realVal v) => setSlotReal b v σ
      | .ok _ => Except.error (.assertFailed "referenced value has wrong type")
  | .vec3Feature b r, σ =>
    if b.valueSlot.isNone then Except.error (.assertFailed "realize: hasValueSlot")
    else
      match refReferencedValue r with
      | .error e => Except.error e
      | .ok (.vec3Val v) => setSlotVec3 b v σ
      | .ok _ => Except.error (.assertFailed "referenced value has wrong type")
  | .stationFeature b r, σ =>
    if b.valueSlot.isNone then Except.error (.assertFailed "realize: hasValueSlot")
    else
      match refReferencedValue r with
      | .error e => Except.error e
      | .ok (.vec3Val v) => setSlotVec3 b v σ
      | .ok _ => Except.error (.assertFailed "referenced value has wrong type")
  | .directionFeature b r, σ =>
    if b.valueSlot.isNone then Except.error (.assertFailed "realize: hasValueSlot")
    else
      match refReferencedValue r with
      | .error e => Except.error e
      | .ok (.vec3Val v) => setSlotVec3 b v σ
      | .ok _ => Except.error (.assertFailed "referenced value has wrong type")
  | .orientationFeature b r, σ =>
    if b.valueSlot.isNone then Except.error (.assertFailed "realize: hasValueSlot")
    else
      match refReferencedValue r with
      | .error e => Except.error e
      | .ok (.mat33Val v) => setSlotMat33 b v σ
      | .ok _ => Except.error (.assertFailed "referenced value has wrong type")
  | .frameFeature b r, σ =>
    if b.valueSlot.isNone then Except.error (.assertFailed "realize: hasValueSlot")
    else
      match refReferencedValue r with
      | .error e => Except.error e
      | .ok (.mat34Val v) => setSlotMat34 b v σ
      | .ok _ => Except.error (.assertFailed "referenced value has wrong type")
  | .realExpr b op args, σ =>
    match PlacementRep.realizeArgs ev args σ with
    | .error e => Except.error e
    | .ok σ1 => setSlotReal b (ev.realApply op args σ1) σ1
  | .vec3Expr b op args, σ =>
    match PlacementRep.realizeArgs ev args σ with
    | .error e => Except.error e
    | .ok σ1 => setSlotVec3 b (ev.vec3Apply op args σ1) σ1
  | .stationExpr _ _ args, σ => PlacementRep.realizeArgs ev args σ
  | .directionExpr _ _ args, σ => PlacementRep.realizeArgs ev args σ
  | .orientationExpr _ _ args, σ => PlacementRep.realizeArgs ev args σ
  | .frameExpr b o s, σ =>
    if b.valueSlot.isNone then Except.error (.assertFailed "realize: hasValueSlot")
    else
      match PlacementRep.realize ev o σ with
      | .error e => Except.error e
      | .ok σ1 =>
        match PlacementRep.realize ev s σ1 with
        | .error e => Except.error e
        | .ok σ2 =>
          match PlacementRep.orientationGetValue o σ2 with
          | .error e => Except.error e
          | .ok ori =>
            match PlacementRep.stationGetValue s σ2 with
            | .error e => Except.error e
            | .ok org => setSlotMat34 b ⟨ori.c0, ori.c1, ori.c2, org⟩ σ2

/-- Realize each operand in order (the body of `exprRealize`). -/
def PlacementRep.realizeArgs (ev : Evaluators) :
    PlacementArgs → SlotStore → Except PErr SlotStore
  | .nil, σ => Except.ok σ
  | .cons p ps, σ =>
    match PlacementRep.realize ev p σ with
    | .error e => Except.error e
    | .ok σ1 => PlacementRep.realizeArgs ev ps σ1
end

/-- Modelled from the spec: the "closer to root" / nearest-common-ancestor
combinator supplied by the Feature collaborator (section 4.8), used when an
expression combines its operands' ancestor answers.  The youngest common
ancestor of two Features is the first entry of one ancestor chain whose
identity also occurs in the other chain. -/
def youngestCommonAncestor (a b : Feature) : Option Feature :=
  a.selfAndAncestors.find? fun x =>
    (b.selfAndAncestors.map Feature.fid).contains x.fid

/-- Modelled from the spec: `refFindAncestorFeature`'s body is in
PlacementRep.cpp (not among the supplied sources).  Per section 4.8 the
answer for a single reference is the referenced Feature itself, provided
it lies within `root`'s subtree. -/
def refFindAncestorFeature (r : FeatureReference) (root : Feature) :
    Except PErr Feature :=
  if (r.feature.selfAndAncestors.map Feature.fid).contains root.fid
  then Except.ok r.feature
  else Except.error (.assertFailed "referenced feature is not in the given subtree")

mutual
/-- `findAncestorFeature` virtual dispatch.  Calling it on any constant rep
is `assert(false); return 0;` (lines 614-617, 773-776, 930-933, 1094-1097,
1222-1225), embedded as a contract failure that never yields a Feature.
The feature-reference and expression branches delegate to
`refFindAncestorFeature` / `exprFindAncestorFeature` /
`FrameExprPlacementRep::findAncestorFeature`, whose bodies are in
PlacementRep.cpp; they are modelled from the spec (section 4.8): a
reference answers with its referenced Feature and an expression combines
its operands' answers with the nearest-common-ancestor combinator. -/
def PlacementRep.findAncestorFeature : PlacementRep → Feature → Except PErr Feature
  | .realConst _ _, _ =>
    Except.error (.assertFailed "findAncestorFeature called on a constant placement")
  | .vec3Const _ _, _ =>
    Except.error (.assertFailed "findAncestorFeature called on a constant placement")
  | .stationConst _ _, _ =>
    Except.error (.assertFailed "findAncestorFeature called on a constant placement")
  | .directionConst _ _, _ =>
    Except.error (.assertFailed "findAncestorFeature called on a constant placement")
  | .orientationConst _ _, _ =>
    Except.error (.assertFailed "findAncestorFeature called on a constant placement")
  | .realFeature _ r, root => refFindAncestorFeature r root
  | .vec3Feature _ r, root => refFindAncestorFeature r root
  | .stationFeature _ r, root => refFindAncestorFeature r root
  | .directionFeature _ r, root => refFindAncestorFeature r root
  | .orientationFeature _ r, root => refFindAncestorFeature r root
  | .frameFeature _ r, root => refFindAncestorFeature r root
  | .realExpr _ _ args, root => PlacementRep.ancestorOfArgs args root
  | .vec3Expr _ _ args, root => PlacementRep.ancestorOfArgs args root
  | .stationExpr _ _ args, root => PlacementRep.ancestorOfArgs args root
  | .directionExpr _ _ args, root => PlacementRep.ancestorOfArgs args root
  | .orientationExpr _ _ args, root => PlacementRep.ancestorOfArgs args root
  | .frameExpr _ o s, root =>
    match PlacementRep.findAncestorFeature o root with
    | .error e => Except.error e
    | .ok a =>
      match PlacementRep.findAncestorFeature s root with
      | .error e => Except.error e
      | .ok b =>
        match youngestCommonAncestor a b with
        | some c => Except.ok c
        | none => Except.error (.assertFailed "operands share no common ancestor")

/-- Combine the operand answers (the body of `exprFindAncestorFeature`). -/
def PlacementRep.ancestorOfArgs : PlacementArgs → Feature → Except PErr Feature
  | .nil, _ => Except.error (.assertFailed "expression has no feature references")
  | .cons p .nil, root => PlacementRep.findAncestorFeature p root
  | .cons p ps, root =>
    match PlacementRep.findAncestorFeature p root with
    | .error e => Except.error e
    | .ok a =>
      match PlacementRep.ancestorOfArgs ps root with
      | .error e => Except.error e
      | .ok b =>
        match youngestCommonAncestor a b with
        | some c => Except.ok c
        | none => Except.error (.assertFailed "operands share no common ancestor")
end

/-- `StationFeaturePlacementRep::castToFramePlacement` (lines 969-984).
The cast succeeds only for an unindexed reference to a Feature that is a
Station whose immediate parent Feature is a Frame; it then builds the
frame placement from the parent frame's orientation (an external
`getOrientation()` accessor) and the referenced station as origin,
embedded here as the `(parent frame, station)` pair.  Every other
reference throws `Exception::FeatureUsedAsFramePlacementMustBeOnFrame`
naming the Feature's full name and feature type name (lines 980-983).
`Station::isInstanceOf` / `Frame::isInstanceOf` are external Feature
queries embedded through `FeatureKind`. -/
def castToFramePlacement (r : FeatureReference) : Except PErr (Feature × Feature) :=
  if !r.isIndexed
      && (r.feature.kind == FeatureKind.stationKind)
      && r.feature.hasParentFeature
      && (r.feature.parent.map Feature.kind == some FeatureKind.frameKind)
  then
    match r.feature.parent with
    | some p => Except.ok (p, r.feature)
    | none => Except.error (.assertFailed "unreachable: hasParentFeature checked")
  else
    Except.error (.featureUsedAsFramePlacementMustBeOnFrame
      r.feature.fullName r.feature.featureTypeName "Orientation")

/-- `clone` is implemented in every concrete rep as `new C(*this)` with the
compiler-generated copy constructor: a memberwise copy, so every feature
and cache-slot pointer is copied verbatim (source comment, lines 521-523).
In the value embedding this is the identity on the node data. -/
def PlacementRep.clone (p : PlacementRep) : PlacementRep := p

/-- `PlacementRep::cloneUnownedWithNewHandle` (lines 524-529): clone, then
point the copy's handle at `p` and clear its owner and index; the
`valueSlot` pointer is left as the clone copied it. -/
def PlacementRep.cloneUnownedWithNewHandle (rep : PlacementRep) (p : Nat) :
    PlacementRep :=
  let pr := rep.clone
  pr.withBase ⟨some p, none, -1, pr.base.valueSlot⟩

/-- A concrete trivial evaluator assignment (the release-mode stubs return
zero after the failed assertion, lines 157 and 195), used to evaluate the
development at concrete inputs. -/
def zeroEvaluators : Evaluators := ⟨fun _ _ _ => 0, fun _ _ _ => ⟨0, 0, 0⟩⟩

/-- Characterization of a successful checked slot write. -/
theorem setSlotChecked_ok (b : RepBase) (t : PlacementValueBody → Bool)
    (v : PlacementValueBody) (σ σ' : SlotStore)
    (h : setSlotChecked b t v σ = Except.ok σ') :
    ∃ k c, b.valueSlot = some k ∧ σ[k]? = some c ∧ t c.body = true
      ∧ σ' = σ.set k ⟨true, v⟩ := by
  unfold setSlotChecked at h
  cases hvs : b.valueSlot with
  | none => rw [hvs] at h; exact absurd h (by simp)
  | some k =>
    rw [hvs] at h
    dsimp only at h
    cases hc : σ[k]? with
    | none => rw [hc] at h; exact absurd h (by simp)
    | some c =>
      rw [hc] at h
      dsimp only at h
      by_cases ht : t c.body
      · rw [if_pos ht] at h
        refine ⟨k, c, rfl, hc, ht, ?_⟩
        cases h
        rfl
      · rw [if_neg ht] at h
        exact absurd h (by simp)

/-- The body of `exprIsConstant` as a fold over the operand list. -/
theorem allConstant_eq_toList : (args : PlacementArgs) →
    PlacementRep.allConstant args = args.toList.all PlacementRep.isConstant
  | .nil => rfl
  | .cons p ps => by
    rw [PlacementRep.allConstant, PlacementArgs.toList, List.all_cons,
      allConstant_eq_toList ps]

/-- The body of `exprDependsOn` as a fold over the operand list. -/
theorem anyDependsOn_eq_toList (f : Feature) : (args : PlacementArgs) →
    PlacementRep.anyDependsOn args f
      = args.toList.any (fun p => PlacementRep.dependsOn p f)
  | .nil => rfl
  | .cons p ps => by
    rw [PlacementRep.anyDependsOn, PlacementArgs.toList, List.any_cons,
      anyDependsOn_eq_toList f ps]

/-- Claim C1. Code bug, evaluated at the failing input: a station
expression (`recastVec3` applied to a Vec3 constant) with an assigned,
fresh cache slot realizes successfully but leaves its slot untouched and
invalid, so its slot-reading `getValue` still fails afterwards; direction
and orientation expressions behave the same way (their `realize` is just
`exprRealize()`, lines 1010, 1157, 1282), while the sibling real
expression does store its computed value into the slot (lines 669-673). -/
theorem stationExpr_realize_stores_nothing :
    (PlacementRep.realize zeroEvaluators
        (.stationExpr ⟨none, none, -1, some 0⟩ .RecastVec3
          (.cons (.vec3Const defaultRepBase ⟨1, 2, 3⟩) .nil))
        [⟨false, .vec3Val ⟨0, 0, 0⟩⟩]
      = Except.ok [⟨false, .vec3Val ⟨0, 0, 0⟩⟩])
    ∧ (PlacementRep.stationGetValue
        (.stationExpr ⟨none, none, -1, some 0⟩ .RecastVec3
          (.cons (.vec3Const defaultRepBase ⟨1, 2, 3⟩) .nil))
        [⟨false, .vec3Val ⟨0, 0, 0⟩⟩]
      = Except.error (.assertFailed "PlacementValue get: value not valid"))
    ∧ (PlacementRep.realize zeroEvaluators
        (.directionExpr ⟨none, none, -1, some 0⟩ .Negate
          (.cons (.directionConst defaultRepBase ⟨1, 0, 0⟩) .nil))
        [⟨false, .vec3Val ⟨0, 0, 0⟩⟩]
      = Except.ok [⟨false, .vec3Val ⟨0, 0, 0⟩⟩])
    ∧ (PlacementRep.realize zeroEvaluators
        (.orientationExpr ⟨none, none, -1, some 0⟩ .NoneYet
          (.cons (.orientationConst defaultRepBase ⟨⟨1,0,0⟩,⟨0,1,0⟩,⟨0,0,1⟩⟩) .nil))
        [⟨false, .mat33Val ⟨⟨1,0,0⟩,⟨0,1,0⟩,⟨0,0,1⟩⟩⟩]
      = Except.ok [⟨false, .mat33Val ⟨⟨1,0,0⟩,⟨0,1,0⟩,⟨0,0,1⟩⟩⟩])
    ∧ (PlacementRep.realize zeroEvaluators
        (.realExpr ⟨none, none, -1, some 0⟩ .Negate
          (.cons (.realConst defaultRepBase 5) .nil))
        [⟨false, .realVal 0⟩]
      = Except.ok [⟨true, .realVal 0⟩]) :=
  ⟨rfl, rfl, rfl, rfl, rfl⟩

/-- Claim C2, counterexample: `Mat33PlacementType` is a `PlacementType`
enumerator that is not among the eleven kinds the claim lists, so the
enumeration does not contain "exactly eleven ... and no others". -/
theorem mat33_placementType_outside_claimed_eleven :
    PlacementType.Mat33PlacementType ∈ allPlacementTypes
    ∧ PlacementType.Mat33PlacementType ∉
      ([PlacementType.BoolPlacementType, PlacementType.IntPlacementType,
        PlacementType.RealPlacementType, PlacementType.Vec2PlacementType,
        PlacementType.Vec3PlacementType, PlacementType.StationPlacementType,
        PlacementType.DirectionPlacementType, PlacementType.OrientationPlacementType,
        PlacementType.FramePlacementType, PlacementType.VoidPlacementType,
        PlacementType.InvalidPlacementType] : List PlacementType) := by
  exact ⟨by decide, by decide⟩

/-- Claim C2, amended: the value-kind tag is a closed enumeration of
exactly twelve placement kinds - the claim's eleven plus the 3x3-matrix
kind `Mat33PlacementType` (enum at lines 82-95). -/
theorem placementType_has_exactly_twelve_kinds :
    (∀ t : PlacementType, t ∈ allPlacementTypes)
    ∧ allPlacementTypes.Nodup
    ∧ allPlacementTypes.length = 12 := by
  refine ⟨fun t => ?_, by decide, rfl⟩
  cases t <;> simp [allPlacementTypes]

/-- Claim C3. Code bug, evaluated at the failing input: a station constant
(and likewise a direction constant) reports `isConstant`, yet its
`getValue()` immediately after construction fails on the
`assert(hasValueSlot())` of the inherited slot-reading implementation,
because `StationConstantPlacementRep` and `DirectionConstantPlacementRep`
never override `getValue` as the base-class comment
"Constant Rep should override this default." (lines 900, 1058) directs;
the real, Vec3 and orientation constants do return their literal
immediately (lines 619, 778, 1227). -/
theorem station_direction_constant_getValue_fails :
    PlacementRep.isConstant (.stationConst defaultRepBase ⟨1, 2, 3⟩) = true
    ∧ PlacementRep.stationGetValue (.stationConst defaultRepBase ⟨1, 2, 3⟩) []
        = Except.error (.assertFailed "getValue: hasValueSlot")
    ∧ PlacementRep.isConstant (.directionConst defaultRepBase ⟨1, 0, 0⟩) = true
    ∧ PlacementRep.directionGetValue (.directionConst defaultRepBase ⟨1, 0, 0⟩) []
        = Except.error (.assertFailed "getValue: hasValueSlot")
    ∧ PlacementRep.realGetValue (.realConst defaultRepBase 5) [] = Except.ok 5
    ∧ PlacementRep.vec3GetValue (.vec3Const defaultRepBase ⟨1, 2, 3⟩) []
        = Except.ok ⟨1, 2, 3⟩
    ∧ PlacementRep.orientationGetValue
        (.orientationConst defaultRepBase ⟨⟨1,0,0⟩,⟨0,1,0⟩,⟨0,0,1⟩⟩) []
        = Except.ok ⟨⟨1,0,0⟩,⟨0,1,0⟩,⟨0,0,1⟩⟩ :=
  ⟨rfl, rfl, rfl, rfl, rfl, rfl, rfl⟩

/-- Claim C5: for every expression placement node, `isConstant` holds
exactly when every operand is constant and `dependsOn f` holds exactly
when some operand depends on `f`; this covers the five `PlacementExpr`
based expression kinds and the two-operand frame expression. -/
theorem expr_isConstant_iff_all_dependsOn_iff_any (b : RepBase)
    (rop : RealOpKind) (vop : Vec3OpKind) (sop : StationOpKind)
    (dop : DirectionOpKind) (oop : OrientationOpKind)
    (args : PlacementArgs) (o s : PlacementRep) (f : Feature) :
    (PlacementRep.isConstant (.realExpr b rop args)
        = args.toList.all PlacementRep.isConstant)
    ∧ (PlacementRep.dependsOn (.realExpr b rop args) f
        = args.toList.any (fun p => PlacementRep.dependsOn p f))
    ∧ (PlacementRep.isConstant (.vec3Expr b vop args)
        = args.toList.all PlacementRep.isConstant)
    ∧ (PlacementRep.dependsOn (.vec3Expr b vop args) f
        = args.toList.any (fun p => PlacementRep.dependsOn p f))
    ∧ (PlacementRep.isConstant (.stationExpr b sop args)
        = args.toList.all PlacementRep.isConstant)
    ∧ (PlacementRep.dependsOn (.stationExpr b sop args) f
        = args.toList.any (fun p => PlacementRep.dependsOn p f))
    ∧ (PlacementRep.isConstant (.directionExpr b dop args)
        = args.toList.all PlacementRep.isConstant)
    ∧ (PlacementRep.dependsOn (.directionExpr b dop args) f
        = args.toList.any (fun p => PlacementRep.dependsOn p f))
    ∧ (PlacementRep.isConstant (.orientationExpr b oop args)
        = args.toList.all PlacementRep.isConstant)
    ∧ (PlacementRep.dependsOn (.orientationExpr b oop args) f
        = args.toList.any (fun p => PlacementRep.dependsOn p f))
    ∧ (PlacementRep.isConstant (.frameExpr b o s)
        = ([o, s].all PlacementRep.isConstant))
    ∧ (PlacementRep.dependsOn (.frameExpr b o s) f
        = ([o, s].any (fun p => PlacementRep.dependsOn p f))) := by
  refine ⟨allConstant_eq_toList args, anyDependsOn_eq_toList f args,
    allConstant_eq_toList args, anyDependsOn_eq_toList f args,
    allConstant_eq_toList args, anyDependsOn_eq_toList f args,
    allConstant_eq_toList args, anyDependsOn_eq_toList f args,
    allConstant_eq_toList args, anyDependsOn_eq_toList f args,
    ?_, ?_⟩ <;> simp [PlacementRep.isConstant, PlacementRep.dependsOn]

/-- Claim C8: `findAncestorFeature` on a constant placement of any of the
five constant kinds defined in the header fails the constants-only
contract (`assert(false); return 0;`) and never yields a Feature. -/
theorem constant_findAncestorFeature_always_fails (b : RepBase) (x : Int)
    (v w d : Vec3) (m : Mat33) (root : Feature) :
    PlacementRep.findAncestorFeature (.realConst b x) root
      = Except.error (.assertFailed "findAncestorFeature called on a constant placement")
    ∧ PlacementRep.findAncestorFeature (.vec3Const b v) root
      = Except.error (.assertFailed "findAncestorFeature called on a constant placement")
    ∧ PlacementRep.findAncestorFeature (.stationConst b w) root
      = Except.error (.assertFailed "findAncestorFeature called on a constant placement")
    ∧ PlacementRep.findAncestorFeature (.directionConst b d) root
      = Except.error (.assertFailed "findAncestorFeature called on a constant placement")
    ∧ PlacementRep.findAncestorFeature (.orientationConst b m) root
      = Except.error (.assertFailed "findAncestorFeature called on a constant placement") :=
  ⟨rfl, rfl, rfl, rfl, rfl⟩

/-- Claim C9: every feature-reference placement rep reports
`isConstant() == false` for every referenced Feature and index, because
all six delegate to `refIsConstant`, which is unconditionally false. -/
theorem feature_reference_isConstant_false (b : RepBase) (r : FeatureReference) :
    PlacementRep.isConstant (.realFeature b r) = false
    ∧ PlacementRep.isConstant (.vec3Feature b r) = false
    ∧ PlacementRep.isConstant (.stationFeature b r) = false
    ∧ PlacementRep.isConstant (.directionFeature b r) = false
    ∧ PlacementRep.isConstant (.orientationFeature b r) = false
    ∧ PlacementRep.isConstant (.frameFeature b r) = false :=
  ⟨rfl, rfl, rfl, rfl, rfl, rfl⟩

/-- Claim C10: `cloneUnownedWithNewHandle(p)` yields a clone whose handle
is `p`, whose owner link and index are cleared, and whose cache-slot
pointer is copied verbatim from the source node (so the clone aliases the
source's cache slot until the repair pass runs). -/
theorem cloneUnownedWithNewHandle_clears_owner_keeps_slot
    (rep : PlacementRep) (p : Nat) :
    (rep.cloneUnownedWithNewHandle p).base.myHandle = some p
    ∧ (rep.cloneUnownedWithNewHandle p).base.hasOwner = false
    ∧ (rep.cloneUnownedWithNewHandle p).base.indexInOwner = -1
    ∧ (rep.cloneUnownedWithNewHandle p).base.valueSlot = rep.base.valueSlot := by
  cases rep <;> exact ⟨rfl, rfl, rfl, rfl⟩

/-- A frame Feature, for exercising `castToFramePlacement`. -/
def frameFeatC6 : Feature := .root ⟨0, .frameKind, "/ground", "Frame", none⟩

/-- A station Feature whose immediate parent is `frameFeatC6`. -/
def stationFeatC6 : Feature :=
  .child ⟨1, .stationKind, "/ground/origin", "Station", none⟩ frameFeatC6

/-- Claim C6, counterexample: an indexed reference to a station Feature
whose immediate parent is a frame Feature satisfies the claim's stated
condition (referenced kind station, parent kind frame), yet the cast
fails, because the source additionally requires the reference to be
unindexed (`!isIndexed()`, line 970). -/
theorem indexed_station_reference_cast_fails :
    stationFeatC6.kind = FeatureKind.stationKind
    ∧ stationFeatC6.parent.map Feature.kind = some FeatureKind.frameKind
    ∧ castToFramePlacement ⟨stationFeatC6, 0⟩
        = Except.error (.featureUsedAsFramePlacementMustBeOnFrame
            "/ground/origin" "Station" "Orientation") :=
  ⟨rfl, rfl, rfl⟩

/-- Claim C6, amended: the cast succeeds exactly when the reference is
unindexed, the referenced Feature's kind is station and its immediate
parent Feature's kind is frame; on success it pairs the parent frame
(whose orientation supplies the rotation) with the referenced station as
origin, and otherwise it throws the named error carrying the offending
Feature's full name and feature type name. -/
theorem castToFramePlacement_characterization (r : FeatureReference) :
    (∀ p, r.feature.parent = some p → r.index = -1 →
      r.feature.kind = FeatureKind.stationKind →
      p.kind = FeatureKind.frameKind →
      castToFramePlacement r = Except.ok (p, r.feature))
    ∧ (¬ (r.index = -1 ∧ r.feature.kind = FeatureKind.stationKind
          ∧ r.feature.parent.map Feature.kind = some FeatureKind.frameKind) →
      castToFramePlacement r = Except.error
        (.featureUsedAsFramePlacementMustBeOnFrame
          r.feature.fullName r.feature.featureTypeName "Orientation")) := by
  constructor
  · intro p hp h1 h2 h3
    simp [castToFramePlacement, FeatureReference.isIndexed,
      Feature.hasParentFeature, hp, h1, h2, h3]
  · intro hnot
    unfold castToFramePlacement
    have hcond : (!FeatureReference.isIndexed r
        && (r.feature.kind == FeatureKind.stationKind)
        && r.feature.hasParentFeature
        && (r.feature.parent.map Feature.kind == some FeatureKind.frameKind))
        = false := by
      by_contra hcb
      rw [Bool.not_eq_false, Bool.and_eq_true, Bool.and_eq_true,
        Bool.and_eq_true] at hcb
      obtain ⟨⟨⟨hi, hk⟩, _⟩, hm⟩ := hcb
      rw [Bool.not_eq_true'] at hi
      refine hnot ⟨?_, by simpa using hk, by simpa using hm⟩
      simpa [FeatureReference.isIndexed] using hi
    rw [hcond]
    simp

/-- Witness for `castToFramePlacement_characterization`: applied to the
unindexed reference to `stationFeatC6`, the cast succeeds and yields the
parent frame paired with the station. -/
theorem castToFramePlacement_characterization_witness :
    (stationFeatC6.parent = some frameFeatC6
      ∧ ((-1 : Int) = -1)
      ∧ stationFeatC6.kind = FeatureKind.stationKind
      ∧ frameFeatC6.kind = FeatureKind.frameKind)
    ∧ castToFramePlacement ⟨stationFeatC6, -1⟩
        = Except.ok (frameFeatC6, stationFeatC6) :=
  ⟨⟨rfl, rfl, rfl, rfl⟩,
    (castToFramePlacement_characterization ⟨stationFeatC6, -1⟩).1
      frameFeatC6 rfl rfl rfl rfl⟩

/-- Claim C7. Code bug, evaluated at the failing input.  Before
realization, `getValue()` on a non-constant node fails fast: with no cache
slot assigned it fails the `assert(hasValueSlot())` of the slot-reading
implementation (lines 586-589), and with an assigned but not-yet-realized
slot the contract-checked cell read fails, so no stale or garbage value is
ever returned.  But the claim's after-realization clause fails on the
station (and likewise direction, orientation) expression nodes: their
`realize()` succeeds without storing anything (lines 1010, 1157, 1282 -
the same defect as claim C1), so the store `realize()` returns is the
unchanged input store and the same `getValue()` read still fails after
realization; a real expression node, whose `realize()` does store (lines
669-673), then reads the freshly stored value from its slot as the claim
says. -/
theorem getValue_after_realize_still_fails_for_station_expr :
    (PlacementRep.realGetValue
        (.realExpr defaultRepBase .Negate
          (.cons (.realConst defaultRepBase 5) .nil)) []
      = Except.error (.assertFailed "getValue: hasValueSlot"))
    ∧ (PlacementRep.realize zeroEvaluators
        (.stationExpr ⟨none, none, -1, some 0⟩ .RecastVec3
          (.cons (.vec3Const defaultRepBase ⟨1, 2, 3⟩) .nil))
        [⟨false, .vec3Val ⟨0, 0, 0⟩⟩]
      = Except.ok [⟨false, .vec3Val ⟨0, 0, 0⟩⟩])
    ∧ (PlacementRep.stationGetValue
        (.stationExpr ⟨none, none, -1, some 0⟩ .RecastVec3
          (.cons (.vec3Const defaultRepBase ⟨1, 2, 3⟩) .nil))
        [⟨false, .vec3Val ⟨0, 0, 0⟩⟩]
      = Except.error (.assertFailed "PlacementValue get: value not valid"))
    ∧ (PlacementRep.realize zeroEvaluators
        (.directionExpr ⟨none, none, -1, some 0⟩ .Negate
          (.cons (.directionConst defaultRepBase ⟨1, 0, 0⟩) .nil))
        [⟨false, .vec3Val ⟨0, 0, 0⟩⟩]
      = Except.ok [⟨false, .vec3Val ⟨0, 0, 0⟩⟩])
    ∧ (PlacementRep.directionGetValue
        (.directionExpr ⟨none, none, -1, some 0⟩ .Negate
          (.cons (.directionConst defaultRepBase ⟨1, 0, 0⟩) .nil))
        [⟨false, .vec3Val ⟨0, 0, 0⟩⟩]
      = Except.error (.assertFailed "PlacementValue get: value not valid"))
    ∧ (PlacementRep.realGetValue
        (.realExpr ⟨none, none, -1, some 0⟩ .Negate
          (.cons (.realConst defaultRepBase 5) .nil))
        [⟨false, .realVal 0⟩]
      = Except.error (.assertFailed "PlacementValue get: value not valid"))
    ∧ (PlacementRep.realize zeroEvaluators
        (.realExpr ⟨none, none, -1, some 0⟩ .Negate
          (.cons (.realConst defaultRepBase 5) .nil))
        [⟨false, .realVal 0⟩]
      = Except.ok [⟨true, .realVal 0⟩])
    ∧ (PlacementRep.realGetValue
        (.realExpr ⟨none, none, -1, some 0⟩ .Negate
          (.cons (.realConst defaultRepBase 5) .nil))
        [⟨true, .realVal 0⟩]
      = Except.ok 0) :=
  ⟨rfl, rfl, rfl, rfl, rfl, rfl, rfl, rfl⟩

/-- Claim C4: for a frame expression placement built from an orientation
placement `o` and a station placement `s`, `isConstant` is the conjunction
and `dependsOn` the disjunction of the operands', and a successful
`realize()` realizes `o` first, then `s`, and stores into the assigned
cache slot the `Mat34` made of `o`'s three columns with `s`'s value as the
fourth (origin) column. -/
theorem frameExpr_constancy_dependency_realize (b : RepBase)
    (o s : PlacementRep) (f : Feature) (ev : Evaluators) (σ σ' : SlotStore)
    (h : PlacementRep.realize ev (.frameExpr b o s) σ = Except.ok σ') :
    PlacementRep.isConstant (.frameExpr b o s) = (o.isConstant && s.isConstant)
    ∧ PlacementRep.dependsOn (.frameExpr b o s) f
        = (o.dependsOn f || s.dependsOn f)
    ∧ ∃ k σ1 σ2 ori org,
        b.valueSlot = some k
        ∧ PlacementRep.realize ev o σ = Except.ok σ1
        ∧ PlacementRep.realize ev s σ1 = Except.ok σ2
        ∧ PlacementRep.orientationGetValue o σ2 = Except.ok ori
        ∧ PlacementRep.stationGetValue s σ2 = Except.ok org
        ∧ σ' = σ2.set k ⟨true, .mat34Val ⟨ori.c0, ori.c1, ori.c2, org⟩⟩
        ∧ σ'[k]? = some ⟨true, .mat34Val ⟨ori.c0, ori.c1, ori.c2, org⟩⟩ := by
  refine ⟨rfl, rfl, ?_⟩
  rw [PlacementRep.realize] at h
  by_cases hvn : b.valueSlot.isNone
  · rw [if_pos hvn] at h; exact absurd h (by simp)
  · rw [if_neg hvn] at h
    obtain ⟨k, hk⟩ : ∃ k, b.valueSlot = some k := by
      cases hv : b.valueSlot with
      | none => rw [hv] at hvn; exact absurd rfl hvn
      | some k => exact ⟨k, rfl⟩
    cases h1 : PlacementRep.realize ev o σ with
    | error e => rw [h1] at h; exact absurd h (by simp)
    | ok σ1 =>
      rw [h1] at h
      dsimp only at h
      cases h2 : PlacementRep.realize ev s σ1 with
      | error e => rw [h2] at h; exact absurd h (by simp)
      | ok σ2 =>
        rw [h2] at h
        dsimp only at h
        cases h3 : PlacementRep.orientationGetValue o σ2 with
        | error e => rw [h3] at h; exact absurd h (by simp)
        | ok ori =>
          rw [h3] at h
          dsimp only at h
          cases h4 : PlacementRep.stationGetValue s σ2 with
          | error e => rw [h4] at h; exact absurd h (by simp)
          | ok org =>
            rw [h4] at h
            dsimp only at h
            obtain ⟨k', c, hk', hc, _, hσ'⟩ := setSlotChecked_ok _ _ _ _ _ h
            rw [hk] at hk'
            injection hk' with hkk
            subst hkk
            have hlt : k < σ2.length := by
              rw [List.getElem?_eq_some] at hc
              exact hc.1
            exact ⟨k, σ1, σ2, ori, org, hk, rfl, h2, h3, h4, hσ',
              by rw [hσ']; exact List.getElem?_set_self hlt⟩

/-- Witness for `frameExpr_constancy_dependency_realize` at a concrete
frame expression: an orientation constant paired with a station constant
whose assigned slot 0 already holds a valid Vec3, the frame value going to
slot 1. -/
theorem frameExpr_constancy_dependency_realize_witness :
    (PlacementRep.realize zeroEvaluators
        (.frameExpr ⟨none, none, -1, some 1⟩
          (.orientationConst defaultRepBase ⟨⟨1,0,0⟩, ⟨0,1,0⟩, ⟨0,0,1⟩⟩)
          (.stationConst ⟨none, none, -1, some 0⟩ ⟨9,9,9⟩))
        [⟨true, .vec3Val ⟨7,8,9⟩⟩,
         ⟨false, .mat34Val ⟨⟨0,0,0⟩, ⟨0,0,0⟩, ⟨0,0,0⟩, ⟨0,0,0⟩⟩⟩]
      = Except.ok
        [⟨true, .vec3Val ⟨7,8,9⟩⟩,
         ⟨true, .mat34Val ⟨⟨1,0,0⟩, ⟨0,1,0⟩, ⟨0,0,1⟩, ⟨7,8,9⟩⟩⟩])
    ∧ (PlacementRep.isConstant
        (.frameExpr ⟨none, none, -1, some 1⟩
          (.orientationConst defaultRepBase ⟨⟨1,0,0⟩, ⟨0,1,0⟩, ⟨0,0,1⟩⟩)
          (.stationConst ⟨none, none, -1, some 0⟩ ⟨9,9,9⟩))
        = ((PlacementRep.orientationConst defaultRepBase
              ⟨⟨1,0,0⟩, ⟨0,1,0⟩, ⟨0,0,1⟩⟩).isConstant
            && (PlacementRep.stationConst ⟨none, none, -1, some 0⟩ ⟨9,9,9⟩).isConstant)
      ∧ PlacementRep.dependsOn
          (.frameExpr ⟨none, none, -1, some 1⟩
            (.orientationConst defaultRepBase ⟨⟨1,0,0⟩, ⟨0,1,0⟩, ⟨0,0,1⟩⟩)
            (.stationConst ⟨none, none, -1, some 0⟩ ⟨9,9,9⟩))
          (.root ⟨5, .realKind, "/x", "RealParameter", none⟩)
          = ((PlacementRep.orientationConst defaultRepBase
                ⟨⟨1,0,0⟩, ⟨0,1,0⟩, ⟨0,0,1⟩⟩).dependsOn
              (.root ⟨5, .realKind, "/x", "RealParameter", none⟩)
            || (PlacementRep.stationConst ⟨none, none, -1, some 0⟩ ⟨9,9,9⟩).dependsOn
              (.root ⟨5, .realKind, "/x", "RealParameter", none⟩))
      ∧ ∃ k σ1 σ2 ori org,
          (⟨none, none, -1, some 1⟩ : RepBase).valueSlot = some k
          ∧ PlacementRep.realize zeroEvaluators
              (.orientationConst defaultRepBase ⟨⟨1,0,0⟩, ⟨0,1,0⟩, ⟨0,0,1⟩⟩)
              [⟨true, .vec3Val ⟨7,8,9⟩⟩,
               ⟨false, .mat34Val ⟨⟨0,0,0⟩, ⟨0,0,0⟩, ⟨0,0,0⟩, ⟨0,0,0⟩⟩⟩]
            = Except.ok σ1
          ∧ PlacementRep.realize zeroEvaluators
              (.stationConst ⟨none, none, -1, some 0⟩ ⟨9,9,9⟩) σ1
            = Except.ok σ2
          ∧ PlacementRep.orientationGetValue
              (.orientationConst defaultRepBase ⟨⟨1,0,0⟩, ⟨0,1,0⟩, ⟨0,0,1⟩⟩) σ2
            = Except.ok ori
          ∧ PlacementRep.stationGetValue
              (.stationConst ⟨none, none, -1, some 0⟩ ⟨9,9,9⟩) σ2
            = Except.ok org
          ∧ ([⟨true, .vec3Val ⟨7,8,9⟩⟩,
              ⟨true, .mat34Val ⟨⟨1,0,0⟩, ⟨0,1,0⟩, ⟨0,0,1⟩, ⟨7,8,9⟩⟩⟩] : SlotStore)
              = σ2.set k ⟨true, .mat34Val ⟨ori.c0, ori.c1, ori.c2, org⟩⟩
          ∧ ([⟨true, .vec3Val ⟨7,8,9⟩⟩,
              ⟨true, .mat34Val ⟨⟨1,0,0⟩, ⟨0,1,0⟩, ⟨0,0,1⟩, ⟨7,8,9⟩⟩⟩] : SlotStore)[k]?
              = some ⟨true, .mat34Val ⟨ori.c0, ori.c1, ori.c2, org⟩⟩) :=
  ⟨rfl, frameExpr_constancy_dependency_realize
    ⟨none, none, -1, some 1⟩
    (.orientationConst defaultRepBase ⟨⟨1,0,0⟩, ⟨0,1,0⟩, ⟨0,0,1⟩⟩)
    (.stationConst ⟨none, none, -1, some 0⟩ ⟨9,9,9⟩)
    (.root ⟨5, .realKind, "/x", "RealParameter", none⟩)
    zeroEvaluators
    [⟨true, .vec3Val ⟨7,8,9⟩⟩,
     ⟨false, .mat34Val ⟨⟨0,0,0⟩, ⟨0,0,0⟩, ⟨0,0,0⟩, ⟨0,0,0⟩⟩⟩]
    [⟨true, .vec3Val ⟨7,8,9⟩⟩,
     ⟨true, .mat34Val ⟨⟨1,0,0⟩, ⟨0,1,0⟩, ⟨0,0,1⟩, ⟨7,8,9⟩⟩⟩]
    rfl⟩

end Simtk
